import Mathlib

/-!
Verification of the ETModel repository (src/et_model.py): the hourly
FAO Penman-Monteith reference-evapotranspiration calculator and the
per-plant soil-water-balance simulator.

The ET0 calculator (which uses `exp`) is embedded over the reals; the
soil-water-balance simulator, the infiltration policy and the parameter
validation (pure arithmetic, comparisons, `min`/`max` and strings) are
embedded over the rationals so they evaluate on concrete inputs.
-/

/-- The psychrometric constant `GAMMA = 0.0665` (src/et_model.py line 10). -/
noncomputable def GAMMA : ℝ := 0.0665

/-- Source function `saturation_vapour_pressure`, equal to
`0.6108 * exp(17.27*T / (T + 237.3))` (src/et_model.py line 56). -/
noncomputable def saturation_vapour_pressure (T : ℝ) : ℝ :=
  0.6108 * Real.exp ((17.27 * T) / (T + 237.3))

/-- Source function `delta_vapour_pressure`, equal to
`4098 * es / (T + 237.3)**2` (src/et_model.py lines 68-69). -/
noncomputable def delta_vapour_pressure (T : ℝ) : ℝ :=
  4098 * saturation_vapour_pressure T / (T + 237.3) ^ 2

/-- Source function `calculate_et0` (src/et_model.py lines 85-91): the FAO Penman-Monteith
hourly ET0, clamped to be non-negative by `max(et0, 0)`. -/
noncomputable def calculate_et0 (T u2 RH GHI : ℝ) : ℝ :=
  let es := saturation_vapour_pressure T
  let ea := es * RH / 100
  let delta := delta_vapour_pressure T
  let Rn := GHI * 0.8 / 3.6
  let et0 := ((0.408 * delta * Rn) + (GAMMA * (900 / (T + 273)) * u2 * (es - ea))) /
      (delta + GAMMA * (1 + 0.34 * u2))
  max et0 0

/-- Latent heat of vaporisation `LAMBDA = 2.45` MJ/kg (src/et_model.py line 8). -/
def LAMBDA : ℚ := 2.45

/-- Conversion factor `MJ_TO_KWH = 1 / 3.6` (src/et_model.py line 9). -/
def MJ_TO_KWH : ℚ := 1 / 3.6

/-- One merged plant configuration entry (src/et_model.py lines 36-43). -/
structure PlantProfile where
  type : String
  area_m2 : ℚ
  kc : ℚ
  root_depth_m : ℚ
  wilting_point : ℚ
  field_capacity : ℚ
deriving DecidableEq

/-- The water-stress coefficient branch ladder (src/et_model.py lines 147-152):
`Ks = 1` when `theta >= theta_fc`, `Ks = 0` when `theta <= theta_wp`, else
the linear interpolation. -/
def ksCoeff (theta_wp theta_fc theta : ℚ) : ℚ :=
  if theta ≥ theta_fc then 1
  else if theta ≤ theta_wp then 0
  else (theta - theta_wp) / (theta_fc - theta_wp)

/-- The infiltration policy (src/et_model.py lines 156-158), `P` in metres:
`P_infiltration = P`, overwritten by `min(P, 20/1000 + (P - 20/1000) * 0.7)`
when `P * 1000 > 20`. -/
def P_infiltration (P : ℚ) : ℚ :=
  if P * 1000 > 20 then min P (20 / 1000 + (P - 20 / 1000) * 0.7) else P

/-- Modelled from the spec: the infiltration policy as the spec sentence
states it, where above the 20 mm threshold only the first 20 mm plus 30% of
the excess infiltrates (70% of the excess is lost to runoff). The code's
inline comment agrees with this; the code itself keeps 70% of the excess. -/
def P_infiltration_spec (P : ℚ) : ℚ :=
  if P * 1000 > 20 then 20 / 1000 + (P - 20 / 1000) * 0.3 else P

/-- The four values appended per timestep (src/et_model.py lines 167-170):
post-update soil moisture, the step's stress coefficient, actual ET in mm,
and the cooling energy in kWh. -/
structure StepResult where
  theta : ℚ
  Ks : ℚ
  et_actual_mm : ℚ
  cooling_kWh : ℚ
deriving DecidableEq

/-- The body of the per-timestep loop (src/et_model.py lines 143-170) for one
weather row: `precip_mm` is the row's `Precip_mm`, `et0_mm` the row's
`ET0_mm`, `theta` the soil-moisture state entering the step. -/
def stepPlant (p : PlantProfile) (theta precip_mm et0_mm : ℚ) : StepResult :=
  let P := precip_mm / 1000
  let Ks := ksCoeff p.wilting_point p.field_capacity theta
  let ET_actual_mm := Ks * p.kc * et0_mm
  let Pinf := P_infiltration P
  let theta1 := theta + (Pinf - ET_actual_mm / 1000) / p.root_depth_m
  let theta2 := min (max theta1 p.wilting_point) p.field_capacity
  let cooling := ET_actual_mm * p.area_m2 * LAMBDA * MJ_TO_KWH / 1000
  ⟨theta2, Ks, ET_actual_mm, cooling⟩

/-- The per-plant loop over the weather rows (src/et_model.py lines 143-170):
each row is a `(Precip_mm, ET0_mm)` pair; the state `theta` is threaded
through the steps and each step appends its `StepResult`. -/
def simulate (p : PlantProfile) : ℚ → List (ℚ × ℚ) → List StepResult
  | _, [] => []
  | theta, (precip, et0) :: rest =>
    let r := stepPlant p theta precip et0
    r :: simulate p r.theta rest

/-- One plant's full simulation, starting from `theta = theta_fc`
(src/et_model.py line 140). -/
def runPlantSim (p : PlantProfile) (weather : List (ℚ × ℚ)) : List StepResult :=
  simulate p p.field_capacity weather

/-- The parameter validation block (src/et_model.py lines 126-137), in source
order: area, root depth, soil parameters, crop coefficient.  Returns the
raised `ValueError` message, or `none` when validation passes. -/
def validatePlant (p : PlantProfile) : Option String :=
  if p.area_m2 ≤ 0 then
    some ("Plant area must be positive, got " ++ toString p.area_m2 ++ " for " ++ p.type)
  else if p.root_depth_m ≤ 0 then
    some ("Root depth must be positive, got " ++ toString p.root_depth_m ++ " for " ++ p.type)
  else if ¬(0 ≤ p.wilting_point ∧ p.wilting_point < p.field_capacity ∧ p.field_capacity ≤ 1) then
    some ("Invalid soil parameters: wilting point (" ++ toString p.wilting_point ++
      ") must be less than field capacity (" ++ toString p.field_capacity ++
      ") and both must be between 0 and 1 for " ++ p.type)
  else if p.kc ≤ 0 then
    some ("Crop coefficient must be positive, got " ++ toString p.kc ++ " for " ++ p.type)
  else
    none

/-- One plant's processing in the main loop (src/et_model.py lines 118-170):
validation runs first and a failure aborts before any simulation step;
otherwise the full simulation runs. -/
def runPlant (p : PlantProfile) (weather : List (ℚ × ℚ)) : Except String (List StepResult) :=
  match validatePlant p with
  | some msg => .error msg
  | none => .ok (runPlantSim p weather)

/-- The aggregate `total_et_actual[i] += ET_actual_mm` accumulation
(src/et_model.py lines 110 and 165): starting from zero, each plant of the
config, in declared order, adds its step-`t` actual ET. -/
def total_et_actual (plants : List PlantProfile) (weather : List (ℚ × ℚ)) (t : ℕ) : ℚ :=
  plants.foldl (fun acc p => acc + ((runPlantSim p weather).map StepResult.et_actual_mm).getD t 0) 0

/-- The Scenario D plant: `theta_fc = 0.3`, `theta_wp = 0.1`, `kc = 1`,
`root_depth_m = 0.3` (area taken as 1 m²; it only scales cooling). -/
def scenDPlant : PlantProfile :=
  ⟨"scenD", 1, 1, 0.3, 0.1, 0.3⟩

/-- Scenario D weather: 3 steps with `Precip_mm = 0` and `ET0_mm = 1`. -/
def scenDWeather : List (ℚ × ℚ) :=
  [(0, 1), (0, 1), (0, 1)]

/-- A plant violating the `area_m2 > 0` validation check. -/
def badPlant : PlantProfile :=
  ⟨"cactus", -1, 1, 1, 0.1, 0.3⟩

/-- A plant passing every validation check. -/
def goodPlant : PlantProfile :=
  ⟨"fern", 2, 1, 0.5, 0.1, 0.3⟩

/-- The simulation emits exactly one `StepResult` per weather row. -/
theorem simulate_length (p : PlantProfile) :
    ∀ (w : List (ℚ × ℚ)) (θ0 : ℚ), (simulate p θ0 w).length = w.length := by
  intro w
  induction w with
  | nil => intro θ0; rfl
  | cons e rest ih =>
    intro θ0
    obtain ⟨pe, ee⟩ := e
    simp [simulate, ih]

/-- C1: the spec says that above the 20 mm threshold only the first 20 mm
plus 30% of the excess infiltrates (70% of the excess runs off), and the
code's own inline comment agrees; but the code computes
`20/1000 + (P - 20/1000) * 0.7`, keeping 70% of the excess.  At `P = 30` mm
the code infiltrates 27 mm where the spec requires 23 mm.  Below the
threshold both agree that everything infiltrates. -/
theorem C1_infiltration_bug :
    P_infiltration (30 / 1000) = 27 / 1000 ∧
    P_infiltration_spec (30 / 1000) = 23 / 1000 ∧
    P_infiltration (30 / 1000) ≠ P_infiltration_spec (30 / 1000) ∧
    P_infiltration (10 / 1000) = 10 / 1000 := by
  refine ⟨?_, ?_, ?_, ?_⟩ <;> norm_num [P_infiltration, P_infiltration_spec]

/-- C4: for finite inputs away from the two pole temperatures, with
`u2 ≥ 0`, `RH ∈ [0,100]`, `GHI ≥ 0`, `calculate_et0` is non-negative:
the formula's value is clamped by `max(et0, 0)` before being returned. -/
theorem C4_et0_nonneg (T u2 RH GHI : ℝ) (hT1 : T ≠ -237.3) (hT2 : T ≠ -273)
    (hu : 0 ≤ u2) (hRH0 : 0 ≤ RH) (hRH1 : RH ≤ 100) (hG : 0 ≤ GHI) :
    0 ≤ calculate_et0 T u2 RH GHI :=
  le_max_right _ _

/-- Witness for C4 at the spec's Scenario B input `T=25, u2=2, RH=60, GHI=500`. -/
theorem C4_witness : 0 ≤ calculate_et0 25 2 60 500 :=
  C4_et0_nonneg 25 2 60 500 (by norm_num) (by norm_num) (by norm_num) (by norm_num)
    (by norm_num) (by norm_num)

/-- C10: for non-negative precipitation `P` (in metres), the infiltration
used in the state update satisfies `0 ≤ P_infiltration P ≤ P`. -/
theorem C10_infiltration_bounds (P : ℚ) (hP : 0 ≤ P) :
    0 ≤ P_infiltration P ∧ P_infiltration P ≤ P := by
  unfold P_infiltration
  split_ifs with h
  · constructor
    · refine le_min hP ?_
      nlinarith
    · exact min_le_left _ _
  · exact ⟨hP, le_refl P⟩

/-- Witness for C10 at `P = 0.03` m (30 mm, above the threshold). -/
theorem C10_witness : 0 ≤ P_infiltration (3 / 100) ∧ P_infiltration (3 / 100) ≤ 3 / 100 :=
  C10_infiltration_bounds (3 / 100) (by norm_num)

/-- C3: for `θwp < θfc` the stress coefficient lies in `[0,1]`, equals `1`
iff `θ ≥ θfc`, equals `0` iff `θ ≤ θwp`, is the linear interpolation
strictly between the bounds, and the `θ = θfc` tie takes the `Ks = 1`
branch. -/
theorem C3_ks_properties (wp fc θ : ℚ) (h : wp < fc) :
    (0 ≤ ksCoeff wp fc θ ∧ ksCoeff wp fc θ ≤ 1) ∧
    (ksCoeff wp fc θ = 1 ↔ fc ≤ θ) ∧
    (ksCoeff wp fc θ = 0 ↔ θ ≤ wp) ∧
    (wp < θ → θ < fc → ksCoeff wp fc θ = (θ - wp) / (fc - wp)) ∧
    ksCoeff wp fc fc = 1 := by
  have htie : ksCoeff wp fc fc = 1 := by
    unfold ksCoeff
    rw [if_pos (le_refl fc)]
  unfold ksCoeff
  by_cases h1 : fc ≤ θ
  · rw [if_pos h1]
    exact ⟨⟨zero_le_one, le_rfl⟩, ⟨fun _ => h1, fun _ => rfl⟩,
      iff_of_false one_ne_zero (by linarith), fun _ hlt => absurd h1 (not_le.2 hlt), htie⟩
  · rw [if_neg h1]
    by_cases h2 : θ ≤ wp
    · rw [if_pos h2]
      exact ⟨⟨le_rfl, zero_le_one⟩, iff_of_false zero_ne_one h1,
        ⟨fun _ => h2, fun _ => rfl⟩, fun hgt _ => absurd h2 (not_le.2 hgt), htie⟩
    · rw [if_neg h2]
      have hθ1 : wp < θ := not_le.1 h2
      have hθ2 : θ < fc := not_le.1 h1
      have hd : 0 < fc - wp := by linarith
      have hpos : 0 < (θ - wp) / (fc - wp) := div_pos (by linarith) hd
      have hlt1 : (θ - wp) / (fc - wp) < 1 := (div_lt_one hd).2 (by linarith)
      exact ⟨⟨hpos.le, hlt1.le⟩, iff_of_false (ne_of_lt hlt1) h1,
        iff_of_false (ne_of_gt hpos) h2, fun _ _ => rfl, htie⟩

/-- Witness for C3 at `θwp = 0.1`, `θfc = 0.3`, `θ = 0.2`. -/
theorem C3_witness :
    (0 ≤ ksCoeff (1 / 10) (3 / 10) (1 / 5) ∧ ksCoeff (1 / 10) (3 / 10) (1 / 5) ≤ 1) ∧
    (ksCoeff (1 / 10) (3 / 10) (1 / 5) = 1 ↔ (3 : ℚ) / 10 ≤ 1 / 5) ∧
    (ksCoeff (1 / 10) (3 / 10) (1 / 5) = 0 ↔ (1 : ℚ) / 5 ≤ 1 / 10) ∧
    ((1 : ℚ) / 10 < 1 / 5 → (1 : ℚ) / 5 < 3 / 10 →
      ksCoeff (1 / 10) (3 / 10) (1 / 5) = (1 / 5 - 1 / 10) / (3 / 10 - 1 / 10)) ∧
    ksCoeff (1 / 10) (3 / 10) (3 / 10) = 1 :=
  C3_ks_properties (1 / 10) (3 / 10) (1 / 5) (by norm_num)

/-- Every result of a simulation run has its soil moisture inside
`[θwp, θfc]`: the per-step clamp `min(max(theta, theta_wp), theta_fc)`
re-establishes the bounds whatever the update did. -/
theorem simulate_theta_bounds (p : PlantProfile) (h : p.wilting_point ≤ p.field_capacity) :
    ∀ (w : List (ℚ × ℚ)) (θ0 : ℚ), ∀ r ∈ simulate p θ0 w,
      p.wilting_point ≤ r.theta ∧ r.theta ≤ p.field_capacity := by
  intro w
  induction w with
  | nil =>
    intro θ0 r hr
    simp [simulate] at hr
  | cons e rest ih =>
    intro θ0 r hr
    obtain ⟨pe, ee⟩ := e
    rw [simulate] at hr
    rcases List.mem_cons.1 hr with h1 | h1
    · subst h1
      exact ⟨le_min (le_max_right _ _) h, min_le_right _ _⟩
    · exact ih _ r h1

/-- C2: for a profile with `0 ≤ θwp < θfc ≤ 1` and non-negative ET0 and
precipitation series, every step of the plant's simulation (initialised at
`θ = θfc`) records a soil moisture inside `[θwp, θfc]`. -/
theorem C2_theta_invariant (p : PlantProfile) (w : List (ℚ × ℚ))
    (h0 : 0 ≤ p.wilting_point) (h1 : p.wilting_point < p.field_capacity)
    (h2 : p.field_capacity ≤ 1)
    (hpr : ∀ e ∈ w, 0 ≤ e.1) (het : ∀ e ∈ w, 0 ≤ e.2) :
    ∀ r ∈ runPlantSim p w, p.wilting_point ≤ r.theta ∧ r.theta ≤ p.field_capacity :=
  fun r hr => simulate_theta_bounds p h1.le w p.field_capacity r hr

/-- The default-valued index lookup of an in-range index is a member. -/
theorem getD_mem_of_lt (l : List StepResult) (d : StepResult) (n : ℕ)
    (h : n < l.length) : l.getD n d ∈ l := by
  rw [List.getD_eq_getElem l d h]
  exact List.getElem_mem h

/-- Witness for C2: the first step of a two-step run of `goodPlant` with a
heavy-rain row then a dry row stays inside `[0.1, 0.3]`. -/
theorem C2_witness :
    goodPlant.wilting_point ≤
      ((runPlantSim goodPlant [(30, 2), (0, 1)]).getD 0 ⟨0, 0, 0, 0⟩).theta ∧
    ((runPlantSim goodPlant [(30, 2), (0, 1)]).getD 0 ⟨0, 0, 0, 0⟩).theta ≤
      goodPlant.field_capacity :=
  C2_theta_invariant goodPlant [(30, 2), (0, 1)] (by norm_num [goodPlant])
    (by norm_num [goodPlant]) (by norm_num [goodPlant])
    (by intro e he; fin_cases he <;> norm_num)
    (by intro e he; fin_cases he <;> norm_num)
    ((runPlantSim goodPlant [(30, 2), (0, 1)]).getD 0 ⟨0, 0, 0, 0⟩)
    (getD_mem_of_lt _ _ 0 (by simp [runPlantSim, simulate_length]))

/-- Left folds of an addition step are the starting value plus the mapped sum. -/
theorem foldl_add_eq_add_sum (f : PlantProfile → ℚ) :
    ∀ (l : List PlantProfile) (a : ℚ),
      l.foldl (fun acc p => acc + f p) a = a + (l.map f).sum := by
  intro l
  induction l with
  | nil => intro a; simp
  | cons x xs ih =>
    intro a
    simp only [List.foldl_cons, List.map_cons, List.sum_cons, ih, add_assoc]

/-- C5: at every timestep `t` the accumulated total (built by adding each
plant's step-`t` actual ET in declared plant order, starting from zero)
equals the sum over the plants of that step's `ET_actual_mm`. -/
theorem C5_total_is_sum (plants : List PlantProfile) (w : List (ℚ × ℚ)) (t : ℕ) :
    total_et_actual plants w t =
      (plants.map (fun p => ((runPlantSim p w).map StepResult.et_actual_mm).getD t 0)).sum := by
  unfold total_et_actual
  rw [foldl_add_eq_add_sum, zero_add]

/-- C6 counterexample: in Scenario D (3 steps, `ET0 = 1` mm, no rain) the
claim fails on the code: after the first step the soil moisture `89/300` is
still above `θwp = 0.1`, yet the second step does not decrease `θ` by
`ET0/1000/root_depth_m = 1/300` (the actual decrement is `Ks`-scaled), and
the last of the three recorded `Ks` values is not `0`. -/
theorem C6_counterexample :
    ((runPlantSim scenDPlant scenDWeather).getD 0 ⟨0, 0, 0, 0⟩).theta >
      scenDPlant.wilting_point ∧
    ((runPlantSim scenDPlant scenDWeather).getD 1 ⟨0, 0, 0, 0⟩).theta ≠
      ((runPlantSim scenDPlant scenDWeather).getD 0 ⟨0, 0, 0, 0⟩).theta -
        1 / 1000 / scenDPlant.root_depth_m ∧
    ((runPlantSim scenDPlant scenDWeather).getD 2 ⟨0, 0, 0, 0⟩).theta >
      scenDPlant.wilting_point ∧
    ((runPlantSim scenDPlant scenDWeather).getD 2 ⟨0, 0, 0, 0⟩).Ks ≠ 0 := by
  refine ⟨?_, ?_, ?_, ?_⟩ <;>
    norm_num [runPlantSim, simulate, stepPlant, ksCoeff, P_infiltration, scenDPlant,
      scenDWeather, LAMBDA, MJ_TO_KWH, List.getD_cons_zero, List.getD_cons_succ]

/-- C6 amended: in Scenario D the soil moisture decreases every step and the
decrement equals `ET0/1000/root_depth_m` only on the first step (while
`θ ≥ θfc`, so `Ks = 1`); the recorded `Ks` values `1, 59/60, 3481/3600`
strictly decrease but `θ` never reaches `θwp` within the 3 steps and `Ks`
never reaches `0`. -/
theorem C6_amended :
    (runPlantSim scenDPlant scenDWeather).map StepResult.theta =
      [89 / 300, 5281 / 18000, 313379 / 1080000] ∧
    (runPlantSim scenDPlant scenDWeather).map StepResult.Ks =
      [1, 59 / 60, 3481 / 3600] ∧
    scenDPlant.field_capacity - 1 / 1000 / scenDPlant.root_depth_m = 89 / 300 ∧
    ((89 : ℚ) / 300 > 5281 / 18000 ∧ (5281 : ℚ) / 18000 > 313379 / 1080000) ∧
    ((1 : ℚ) > 59 / 60 ∧ (59 : ℚ) / 60 > 3481 / 3600 ∧ (3481 : ℚ) / 3600 > 0) ∧
    ((89 : ℚ) / 300 > 1 / 10 ∧ (5281 : ℚ) / 18000 > 1 / 10 ∧
      (313379 : ℚ) / 1080000 > 1 / 10) := by
  refine ⟨?_, ?_, ?_, ⟨?_, ?_⟩, ⟨?_, ?_, ?_⟩, ⟨?_, ?_, ?_⟩⟩ <;>
    norm_num [runPlantSim, simulate, stepPlant, ksCoeff, P_infiltration, scenDPlant,
      scenDWeather, LAMBDA, MJ_TO_KWH]

/-- Each recorded step equals the loop body applied to the state as it stood
before that step: the state entering step `t` is `θ0` for `t = 0` and the
`theta` recorded at step `t - 1` otherwise. -/
theorem simulate_getD (p : PlantProfile) :
    ∀ (w : List (ℚ × ℚ)) (θ0 : ℚ) (t : ℕ), t < (simulate p θ0 w).length →
      (simulate p θ0 w).getD t ⟨0, 0, 0, 0⟩ =
        stepPlant p
          (if t = 0 then θ0 else ((simulate p θ0 w).getD (t - 1) ⟨0, 0, 0, 0⟩).theta)
          ((w.getD t (0, 0)).1) ((w.getD t (0, 0)).2) := by
  intro w
  induction w with
  | nil =>
    intro θ0 t ht
    simp [simulate] at ht
  | cons e rest ih =>
    obtain ⟨pe, ee⟩ := e
    intro θ0 t ht
    rw [show simulate p θ0 ((pe, ee) :: rest) =
        stepPlant p θ0 pe ee :: simulate p (stepPlant p θ0 pe ee).theta rest from rfl] at ht ⊢
    match t with
    | 0 => simp
    | Nat.succ s =>
      rw [List.getD_cons_succ]
      rw [List.length_cons] at ht
      have hlen : s < (simulate p (stepPlant p θ0 pe ee).theta rest).length :=
        Nat.lt_of_succ_lt_succ ht
      rw [ih (stepPlant p θ0 pe ee).theta s hlen]
      match s with
      | 0 => simp
      | Nat.succ u => simp

/-- C9: the `Ks` recorded at step `t` is computed from the soil moisture as
it stood before the step `t` update (`θfc` for the first step, the recorded
`theta` of step `t - 1` otherwise), while the recorded `theta` is the
post-update, post-clamp value — both captured by the step-`t` record being
`stepPlant` applied to the pre-step state; and the first recorded `Ks` is 1. -/
theorem C9_ks_pre_update (p : PlantProfile) (w : List (ℚ × ℚ)) (t : ℕ)
    (ht : t < (runPlantSim p w).length) :
    (runPlantSim p w).getD t ⟨0, 0, 0, 0⟩ =
      stepPlant p
        (if t = 0 then p.field_capacity
         else ((runPlantSim p w).getD (t - 1) ⟨0, 0, 0, 0⟩).theta)
        ((w.getD t (0, 0)).1) ((w.getD t (0, 0)).2) ∧
    ((runPlantSim p w).getD 0 ⟨0, 0, 0, 0⟩).Ks = 1 := by
  constructor
  · exact simulate_getD p w p.field_capacity t ht
  · cases w with
    | nil =>
      rw [runPlantSim] at ht
      simp [simulate] at ht
    | cons e rest =>
      obtain ⟨pe, ee⟩ := e
      rw [runPlantSim,
        show simulate p p.field_capacity ((pe, ee) :: rest) =
          stepPlant p p.field_capacity pe ee ::
            simulate p (stepPlant p p.field_capacity pe ee).theta rest from rfl,
        List.getD_cons_zero]
      show ksCoeff p.wilting_point p.field_capacity p.field_capacity = 1
      unfold ksCoeff
      rw [if_pos (le_refl p.field_capacity)]

/-- Witness for C9: the second step of a two-row run of `goodPlant`. -/
theorem C9_witness :
    (runPlantSim goodPlant [(0, 1), (0, 1)]).getD 1 ⟨0, 0, 0, 0⟩ =
      stepPlant goodPlant
        (if (1 : ℕ) = 0 then goodPlant.field_capacity
         else ((runPlantSim goodPlant [(0, 1), (0, 1)]).getD 0 ⟨0, 0, 0, 0⟩).theta)
        ((([((0 : ℚ), (1 : ℚ)), (0, 1)]).getD 1 (0, 0)).1)
        ((([((0 : ℚ), (1 : ℚ)), (0, 1)]).getD 1 (0, 0)).2) ∧
    ((runPlantSim goodPlant [(0, 1), (0, 1)]).getD 0 ⟨0, 0, 0, 0⟩).Ks = 1 :=
  C9_ks_pre_update goodPlant [(0, 1), (0, 1)] 1
    (by simp [runPlantSim, simulate_length])

/-- C8: simulation is entered only if validation passes.  Each of the four
checks (area, root depth, soil parameters, crop coefficient — tried in
source order) fails with the `ValueError` message naming the offending value
and the plant type, and the run then returns the error rather than any step
results; with all four conditions satisfied, no validation error is raised
and the full simulation runs. -/
theorem C8_validation (p : PlantProfile) (w : List (ℚ × ℚ)) :
    (p.area_m2 ≤ 0 → runPlant p w = .error
      ("Plant area must be positive, got " ++ toString p.area_m2 ++ " for " ++ p.type)) ∧
    (0 < p.area_m2 → p.root_depth_m ≤ 0 → runPlant p w = .error
      ("Root depth must be positive, got " ++ toString p.root_depth_m ++ " for " ++ p.type)) ∧
    (0 < p.area_m2 → 0 < p.root_depth_m →
      ¬(0 ≤ p.wilting_point ∧ p.wilting_point < p.field_capacity ∧ p.field_capacity ≤ 1) →
      runPlant p w = .error
      ("Invalid soil parameters: wilting point (" ++ toString p.wilting_point ++
        ") must be less than field capacity (" ++ toString p.field_capacity ++
        ") and both must be between 0 and 1 for " ++ p.type)) ∧
    (0 < p.area_m2 → 0 < p.root_depth_m →
      (0 ≤ p.wilting_point ∧ p.wilting_point < p.field_capacity ∧ p.field_capacity ≤ 1) →
      p.kc ≤ 0 → runPlant p w = .error
      ("Crop coefficient must be positive, got " ++ toString p.kc ++ " for " ++ p.type)) ∧
    (0 < p.area_m2 → 0 < p.root_depth_m →
      (0 ≤ p.wilting_point ∧ p.wilting_point < p.field_capacity ∧ p.field_capacity ≤ 1) →
      0 < p.kc → runPlant p w = .ok (runPlantSim p w)) := by
  unfold runPlant validatePlant
  refine ⟨fun h1 => ?_, fun h1 h2 => ?_, fun h1 h2 h3 => ?_,
    fun h1 h2 h3 h4 => ?_, fun h1 h2 h3 h4 => ?_⟩
  · rw [if_pos h1]
  · rw [if_neg (not_le.2 h1), if_pos h2]
  · rw [if_neg (not_le.2 h1), if_neg (not_le.2 h2), if_pos h3]
  · rw [if_neg (not_le.2 h1), if_neg (not_le.2 h2), if_neg (not_not_intro h3), if_pos h4]
  · rw [if_neg (not_le.2 h1), if_neg (not_le.2 h2), if_neg (not_not_intro h3),
      if_neg (not_le.2 h4)]

/-- Witness for C8: `badPlant` (negative area) is rejected with a message
naming its area and type before any simulation; `goodPlant` passes
validation and its simulation runs. -/
theorem C8_witness :
    runPlant badPlant [] = .error
      ("Plant area must be positive, got " ++ toString badPlant.area_m2 ++
        " for " ++ badPlant.type) ∧
    runPlant goodPlant [] = .ok (runPlantSim goodPlant []) :=
  ⟨(C8_validation badPlant []).1 (by norm_num [badPlant]),
   (C8_validation goodPlant []).2.2.2.2 (by norm_num [goodPlant]) (by norm_num [goodPlant])
     (by norm_num [goodPlant]) (by norm_num [goodPlant])⟩

set_option maxHeartbeats 1600000 in
/-- C7: `delta_vapour_pressure` is strictly increasing on `[0, 45]` °C.
After clearing the (positive) squared denominators the comparison reduces to
`exp(x2 - x1) > ((T2+237.3)/(T1+237.3))^2` with
`x2 - x1 = 17.27·237.3·(T2-T1)/((T1+237.3)(T2+237.3)) > 0`, which follows
from `exp d > 1 + d` together with a polynomial bound valid because
`T + 237.3` stays far below `17.27·237.3/2` on the interval. -/
theorem C7_delta_strict_mono (T1 T2 : ℝ) (h0 : 0 ≤ T1) (h12 : T1 < T2) (h45 : T2 ≤ 45) :
    delta_vapour_pressure T1 < delta_vapour_pressure T2 := by
  have hu1 : (0 : ℝ) < T1 + 237.3 := by linarith
  have hu2 : (0 : ℝ) < T2 + 237.3 := by linarith
  unfold delta_vapour_pressure saturation_vapour_pressure
  rw [div_lt_div_iff₀ (pow_pos hu1 2) (pow_pos hu2 2)]
  set x1 := (17.27 * T1) / (T1 + 237.3) with hx1
  set x2 := (17.27 * T2) / (T2 + 237.3) with hx2
  have hD : x2 - x1 = 4098.171 * (T2 - T1) / ((T1 + 237.3) * (T2 + 237.3)) := by
    rw [hx1, hx2]
    field_simp
    ring
  have hDpos : 0 < x2 - x1 := by
    rw [hD]
    exact div_pos (by nlinarith) (mul_pos hu1 hu2)
  have hexp : (x2 - x1) + 1 < Real.exp (x2 - x1) := Real.add_one_lt_exp (ne_of_gt hDpos)
  have hsplit : (1 + (x2 - x1)) * (T1 + 237.3) ^ 2
      = (T1 + 237.3) ^ 2 + 4098.171 * (T2 - T1) * (T1 + 237.3) / (T2 + 237.3) := by
    rw [hD]
    field_simp
    ring
  have hinner : 0 ≤ 4098.171 * (T1 + 237.3) - ((T1 + 237.3) + (T2 + 237.3)) * (T2 + 237.3) := by
    have hAB : 0 ≤ (282.3 - (T2 + 237.3)) * ((T1 + 237.3) + (T2 + 237.3)) :=
      mul_nonneg (by linarith) (by linarith)
    nlinarith [hAB]
  have hOuter : 0 ≤ (T2 - T1) *
      (4098.171 * (T1 + 237.3) - ((T1 + 237.3) + (T2 + 237.3)) * (T2 + 237.3)) :=
    mul_nonneg (by linarith) hinner
  have hpoly : (T2 + 237.3) ^ 2 ≤ (1 + (x2 - x1)) * (T1 + 237.3) ^ 2 := by
    rw [hsplit, ← sub_le_iff_le_add', le_div_iff₀ hu2]
    nlinarith [hOuter]
  have hE2eq : Real.exp x2 = Real.exp x1 * Real.exp (x2 - x1) := by
    rw [← Real.exp_add]
    congr 1
    ring
  calc 4098 * (0.6108 * Real.exp x1) * (T2 + 237.3) ^ 2
      ≤ 4098 * 0.6108 * (Real.exp x1 * ((1 + (x2 - x1)) * (T1 + 237.3) ^ 2)) := by
        have h := mul_le_mul_of_nonneg_left hpoly (Real.exp_pos x1).le
        nlinarith [h]
    _ < 4098 * 0.6108 * (Real.exp x1 * (Real.exp (x2 - x1) * (T1 + 237.3) ^ 2)) := by
        have hlt : (1 + (x2 - x1)) * (T1 + 237.3) ^ 2
            < Real.exp (x2 - x1) * (T1 + 237.3) ^ 2 :=
          mul_lt_mul_of_pos_right (by linarith) (pow_pos hu1 2)
        have h2 := mul_lt_mul_of_pos_left hlt (Real.exp_pos x1)
        nlinarith [h2]
    _ = 4098 * (0.6108 * Real.exp x2) * (T1 + 237.3) ^ 2 := by
        rw [hE2eq]
        ring

/-- Witness for C7 at the interval's endpoints. -/
theorem C7_witness : delta_vapour_pressure 0 < delta_vapour_pressure 45 :=
  C7_delta_strict_mono 0 45 (by norm_num) (by norm_num) (by norm_num)
